import Mathlib

/-!
Verification development for the MT3DMS comparison example scripts
(`ex-gwt-mt3dms-p01.py` and `ex-gwt-mt3dms-p02.py`).

The scripts are orchestration glue: a parameter table, builder functions
that derive package coefficients, a writer, a runner that shells out to
external solvers, and a plotter, sequenced per scenario and gated by a
process-wide configuration object.  The embedding below models the
repository's own logic exactly: numeric literals become exact rationals,
Python `None`-able arguments become `Option`, exceptions become `Except`,
and the runner's external processes become explicit outcome parameters.
-/

namespace MT3DMS

/-- The process-wide configuration flags read from the shared `config`
module (`config.buildModel`, `config.writeModel`, `config.runModel`,
`config.plotModel`, `config.plotSave`). -/
structure Config where
  buildModel : Bool
  writeModel : Bool
  runModel : Bool
  plotModel : Bool
  plotSave : Bool
deriving DecidableEq, Repr

namespace P01

/- Module-level constants of `ex-gwt-mt3dms-p01.py`. -/

def nper : ℚ := 1

def nlay : Nat := 1

def ncol : Nat := 101

def nrow : Nat := 1

def delr : ℚ := 10

def delc : ℚ := 1

def top : ℚ := 0

def botm : ℚ := -1

def prsity : ℚ := 1/4

def perlen : ℚ := 2000

def k11 : ℚ := 1

def nstp : ℚ := 100

def dt0 : ℚ := perlen / nstp

def Lx : ℚ := (ncol - 1 : ℚ) * delr

def v : ℚ := 24/100

def q : ℚ := v * prsity

def h1 : ℚ := q * Lx

def rhob : ℚ := 1/4

def c0 : ℚ := 1

/-- `ibound` array: ones, with `ibound[0, 0, 0] = -1` and
`ibound[0, 0, -1] = -1` (index `-1` is column `ncol - 1 = 100`). -/
def ibound (lay row col : Nat) : Int :=
  if lay = 0 ∧ row = 0 ∧ col = 0 then -1
  else if lay = 0 ∧ row = 0 ∧ col = ncol - 1 then -1
  else 1

/-- Static temporal data used by the TDIS file: `[(perlen, nstp, 1.0)]`. -/
def tdis_rc : List (ℚ × ℚ × ℚ) := [(perlen, nstp, 1)]

/-- Constant-head boundary data: head `h1` at cell `(0,0,0)` and head `0`
at cell `(0,0,ncol-1)`. -/
def chdspd : List ((Nat × Nat × Nat) × ℚ) := [((0, 0, 0), h1), ((0, 0, ncol - 1), 0)]

/-- Constant-concentration boundary data: concentration `c0` at `(0,0,0)`. -/
def cncspd : List ((Nat × Nat × Nat) × ℚ) := [((0, 0, 0), c0)]

/-- Keyword arguments accepted by `build_model`, with the source's
default values. -/
structure Params where
  dispersivity : ℚ := 0
  retardation : ℚ := 0
  decay : ℚ := 0
  mixelm : Int := 0
deriving DecidableEq, Repr

/-- The scenario parameter table of `ex-gwt-mt3dms-p01.py`.  None of the
entries sets `mixelm`, so `build_model`'s default `mixelm = 0` is used. -/
def parameters : List (String × Params) :=
  [("ex-gwt-mt3dms-p01a", { dispersivity := 0, retardation := 1, decay := 0 }),
   ("ex-gwt-mt3dms-p01b", { dispersivity := 10, retardation := 1, decay := 0 }),
   ("ex-gwt-mt3dms-p01c", { dispersivity := 10, retardation := 5, decay := 0 }),
   ("ex-gwt-mt3dms-p01d", { dispersivity := 10, retardation := 5, decay := 0.002 })]

/-- Arguments passed to `flopy.mt3d.Mt3dRct` in `build_model`. -/
structure RctPkg where
  isothm : ℚ
  ireact : ℚ
  igetsc : ℚ
  rhob : ℚ
  sp1 : ℚ
  rc1 : ℚ
  rc2 : ℚ
deriving DecidableEq, Repr

/-- Arguments passed to `flopy.mf6.ModflowGwtmst` in `build_model`. -/
structure MstPkg where
  porosity : ℚ
  sorption : Option String
  bulk_density : ℚ
  distcoef : ℚ
  first_order_decay : Bool
  decay : ℚ
  decay_sorbed : ℚ
deriving DecidableEq, Repr

/-- The reactive-variable block of `build_model` (source lines 256-278):
`isothm` is `0.0` when `retardation == 1.0` and `1` otherwise, `ireact`
and `rc1` follow the `decay != 0` test (the `rc1 = 0.0` assignment in the
retardation branch is always overwritten by the decay branch), and
`kd = (retardation - 1.0) * prsity / rhob` is computed unconditionally
and passed as `sp1`. -/
def buildRct (p : Params) : RctPkg :=
  let isothm : ℚ := if p.retardation = 1 then 0 else 1
  let ireact : ℚ := if p.decay ≠ 0 then 1 else 0
  let rc1 : ℚ := if p.decay ≠ 0 then p.decay else 0
  let kd : ℚ := (p.retardation - 1) * prsity / rhob
  { isothm := isothm, ireact := ireact, igetsc := 0, rhob := rhob,
    sp1 := kd, rc1 := rc1, rc2 := rc1 }

/-- The mass-storage block of `build_model` (source lines 444-467):
for `retardation != 1.0` sorption is `"linear"` and
`kd = (retardation - 1.0) * prsity / rhob`; otherwise sorption is `None`
and `kd = 1.0` is still passed as `distcoef`.  `first_order_decay`
follows the `decay != 0.0` test, and `decay` and `decay_sorbed` are both
the raw `decay` argument. -/
def buildMst (p : Params) : MstPkg :=
  let sorption : Option String := if p.retardation ≠ 1 then some "linear" else none
  let kd : ℚ := if p.retardation ≠ 1 then (p.retardation - 1) * prsity / rhob else 1
  let first_order_decay : Bool := p.decay ≠ 0
  { porosity := prsity, sorption := sorption, bulk_density := rhob,
    distcoef := kd, first_order_decay := first_order_decay,
    decay := p.decay, decay_sorbed := p.decay }

/-- The advection-scheme selection of `build_model` (source lines
424-429): `mixelm == 0` gives `"UPSTREAM"`, `mixelm == -1` gives
`"TVD"`, anything else raises a bare `Exception`. -/
def advScheme (mixelm : Int) : Except String String :=
  if mixelm = 0 then .ok "UPSTREAM"
  else if mixelm = -1 then .ok "TVD"
  else .error "Exception"

/-- The parameter-dependent and claim-relevant content of the three
simulation descriptions (`mf`, `mt`, `sim`) returned by `build_model`. -/
structure Sims where
  nlay : Nat
  nrow : Nat
  ncol : Nat
  delr : ℚ
  delc : ℚ
  ibound : Nat → Nat → Nat → Int
  chdspd : List ((Nat × Nat × Nat) × ℚ)
  cncspd : List ((Nat × Nat × Nat) × ℚ)
  perioddata : List (ℚ × ℚ × ℚ)
  mt3dAl : ℚ
  rct : RctPkg
  scheme : String
  dsp : Option (ℚ × ℚ)
  mst : MstPkg
  gwtSaverecord : List (String × String)

/-- The body of `build_model` apart from the `config.buildModel` gate:
assembles the package data, raising on an unrecognized `mixelm`.  The
MF6 dispersion package is instantiated only when `dispersivity != 0`. -/
def buildSims (p : Params) : Except String Sims :=
  match advScheme p.mixelm with
  | .error e => .error e
  | .ok scheme =>
    .ok { nlay := nlay, nrow := nrow, ncol := ncol, delr := delr, delc := delc,
          ibound := ibound, chdspd := chdspd, cncspd := cncspd,
          perioddata := tdis_rc, mt3dAl := p.dispersivity,
          rct := buildRct p, scheme := scheme,
          dsp := if p.dispersivity ≠ 0 then some (p.dispersivity, p.dispersivity) else none,
          mst := buildMst p,
          gwtSaverecord := [("CONCENTRATION", "LAST"), ("BUDGET", "LAST")] }

/-- `build_model`: returns the simulation objects when
`config.buildModel` is set and `None` otherwise. -/
def build_model (cfg : Config) (p : Params) : Except String (Option Sims) :=
  if cfg.buildModel then
    match buildSims p with
    | .error e => .error e
    | .ok s => .ok (some s)
  else .ok none

/-- A filesystem: a map from path to file contents. -/
abbrev FS : Type := String → Option String

/-- Write a batch of files into a filesystem, overwriting existing
contents at the same paths. -/
def writeAll (files : List (String × String)) (fs : FS) : FS :=
  fun p =>
    match files.lookup p with
    | some c => some c
    | none => fs p

/-- Modelled from the spec: the collaborator library's serializers
(`write_input` on the MODFLOW/MT3DMS objects and `write_simulation` on
the MF6 simulation) are not part of this repository; per the spec the
Writer "serializes a simulation description to a file-system workspace
in the external solver's required layout", a deterministic function of
the description.  Contents here are a plain rendering of the package
data. -/
def serializeSims (simName : String) (s : Sims) : List (String × String) :=
  [(simName ++ "/mt3d/p01-mf.dis",
      toString s.nlay ++ " " ++ toString s.nrow ++ " " ++ toString s.ncol ++ " " ++
      toString s.delr ++ " " ++ toString s.delc),
   (simName ++ "/mt3d/p01-mf.bas",
      String.intercalate " " ((List.range s.ncol).map (fun c => toString (s.ibound 0 0 c)))),
   (simName ++ "/mt3d/p01-mt.dsp", toString s.mt3dAl),
   (simName ++ "/mt3d/p01-mt.rct",
      toString s.rct.isothm ++ " " ++ toString s.rct.ireact ++ " " ++
      toString s.rct.igetsc ++ " " ++ toString s.rct.rhob ++ " " ++
      toString s.rct.sp1 ++ " " ++ toString s.rct.rc1 ++ " " ++ toString s.rct.rc2),
   (simName ++ "/gwf-p01-mf6.chd",
      String.intercalate "; " (s.chdspd.map (fun e =>
        toString e.1.1 ++ "," ++ toString e.1.2.1 ++ "," ++ toString e.1.2.2 ++ ":" ++
        toString e.2))),
   (simName ++ "/gwt-p01-mf6.adv", s.scheme),
   (simName ++ "/gwt-p01-mf6.dsp",
      match s.dsp with
      | some d => toString d.1 ++ " " ++ toString d.2
      | none => ""),
   (simName ++ "/gwt-p01-mf6.mst",
      (match s.mst.sorption with | some srp => srp | none => "none") ++ " " ++
      toString s.mst.porosity ++ " " ++ toString s.mst.bulk_density ++ " " ++
      toString s.mst.distcoef ++ " " ++ toString s.mst.first_order_decay ++ " " ++
      toString s.mst.decay ++ " " ++ toString s.mst.decay_sorbed),
   (simName ++ "/gwt-p01-mf6.cnc",
      String.intercalate "; " (s.cncspd.map (fun e =>
        toString e.1.1 ++ "," ++ toString e.1.2.1 ++ "," ++ toString e.1.2.2 ++ ":" ++
        toString e.2)))]

/-- `write_model`: when `config.writeModel` is set, serializes all three
descriptions into the workspace; calling it with the `None` returned by
a skipped build raises an `AttributeError` in the source. -/
def write_model (cfg : Config) (simName : String) (built : Option Sims) (fs : FS) :
    Except String FS :=
  if cfg.writeModel then
    match built with
    | none => .error "AttributeError: NoneType object has no attribute write_input"
    | some s => .ok (writeAll (serializeSims simName s) fs)
  else .ok fs

/-- One `build_model` + `write_model` pass with both phases enabled, as
a filesystem transformer (a failed build leaves the filesystem
untouched). -/
def buildWrite (simName : String) (p : Params) (fs : FS) : FS :=
  match buildSims p with
  | .ok s => writeAll (serializeSims simName s) fs
  | .error _ => fs

/-- Outcomes of the external solver invocations for one scenario, plus
the concentration profiles each solver leaves in its output files: the
repository does not compute these, it only consumes them. -/
structure ExtRuns where
  mfRun : Bool × String
  mtRun : Bool × String
  simRun : Bool × String
  concMt : Fin 101 → ℚ
  concMf6 : Fin 101 → ℚ

/-- The body of `run_model` under the `config.runModel` gate (source
lines 522-531): `success, buff` is rebound by each of the three
invocations in turn, so only the final MF6 invocation's outcome survives,
and `buff` is printed only when that final outcome is a failure. -/
def runCore (rMf rMt rSim : Bool × String) : Bool × List String :=
  let (success, buff) := rMf
  let (success, buff) := rMt
  let (success, buff) := rSim
  let printed : List String := if success = false then [buff] else []
  (success, printed)

/-- `run_model`: `success = True` up front; the three solver invocations
run only under `config.runModel` (invoking them on `None` models raises).
Returns the success flag and the list of printed diagnostic texts. -/
def run_model (cfg : Config) (built : Option Sims) (ext : ExtRuns) :
    Except String (Bool × List String) :=
  let success := true
  if cfg.runModel then
    match built with
    | none => .error "AttributeError: NoneType object has no attribute run_model"
    | some _ => .ok (runCore ext.mfRun ext.mtRun ext.simRun)
  else .ok (success, [])

/-- The figure produced by `plot_results`: the two plotted series (the
raw concentration arrays read from each solver's output), the series
labels, the heading text, and whether the figure was saved to disk. -/
structure Figure where
  mtSeries : Fin 101 → ℚ
  mf6Series : Fin 101 → ℚ
  labels : List String
  title : String
  saved : Bool

/-- The body of `plot_results` under the `config.plotModel` gate: plots
`conc_mt3d[0, 0, 0, :]` and `conc_mf6[0, 0, 0, :]` as they are read
from the output files, with labels MT3DMS and MF6 and the fixed
time-2000 heading; the figure is saved when `config.plotSave` is set. -/
def plotCore (plotSave : Bool) (concMt concMf6 : Fin 101 → ℚ) : Figure :=
  { mtSeries := fun i => concMt i,
    mf6Series := fun i => concMf6 i,
    labels := ["MT3DMS", "MF6"],
    title := "Concentration Profile at Time = 2,000 days",
    saved := plotSave }

/-- `plot_results`: silently does nothing when `config.plotModel` is
unset; with it set, reads the two solvers' outputs (raising when handed
the `None` models of a skipped build) and produces the figure. -/
def plot_results (cfg : Config) (built : Option Sims) (ext : ExtRuns) :
    Except String (Option Figure) :=
  if cfg.plotModel then
    match built with
    | none => .error "AttributeError: NoneType object has no attribute model_ws"
    | some _ => .ok (some (plotCore cfg.plotSave ext.concMt ext.concMf6))
  else .ok none

/-- Observable trace of one `scenario` call: which phase bodies ran,
the runner's reported success, the diagnostics printed, and whether a
figure was produced / saved. -/
structure Trace where
  buildExecuted : Bool
  writeExecuted : Bool
  runExecuted : Bool
  runSuccess : Bool
  printed : List String
  plotExecuted : Bool
  figureSaved : Bool
deriving DecidableEq, Repr

/-- `scenario(idx)`: looks the scenario up in the parameter table
(raising `IndexError` past the end), then sequences
`build_model`, `write_model`, `run_model`, and — only on reported
success — `plot_results`. -/
def scenario (cfg : Config) (ext : ExtRuns) (idx : Nat) : Except String Trace := do
  match parameters.get? idx with
  | none => .error "IndexError: list index out of range"
  | some kv =>
    let built ← build_model cfg kv.2
    let _fs ← write_model cfg kv.1 built (fun _ => none)
    let res ← run_model cfg built ext
    let fig ← if res.1 then plot_results cfg built ext else .ok none
    .ok { buildExecuted := cfg.buildModel,
          writeExecuted := cfg.writeModel,
          runExecuted := cfg.runModel,
          runSuccess := res.1,
          printed := res.2,
          plotExecuted := fig.isSome,
          figureSaved := match fig with | some f => f.saved | none => false }

/-- The script's main block: runs the four scenarios in order; a Python
exception in any of them would propagate, but a solver failure is only a
returned flag and does not stop the batch. -/
def mainBlock (cfg : Config) (ext : Nat → ExtRuns) : Except String (List Trace) := do
  let t0 ← scenario cfg (ext 0) 0
  let t1 ← scenario cfg (ext 1) 1
  let t2 ← scenario cfg (ext 2) 2
  let t3 ← scenario cfg (ext 3) 3
  .ok [t0, t1, t2, t3]

end P01

namespace P02

/- Module-level constants of `ex-gwt-mt3dms-p02.py`. -/

def nper : Nat := 2

def nlay : Nat := 1

def nrow : Nat := 1

def ncol : Nat := 101

def period1 : ℚ := 160

def period2 : ℚ := 1340

def delta_time : ℚ := 1

def delr : ℚ := 16/100

def delc : ℚ := 16/100

def top : ℚ := 1

def botm : ℚ := 0

def velocity : ℚ := 1/10

def hydraulic_conductivity : ℚ := 1/100

def porosity : ℚ := 37/100

def bulk_density : ℚ := 1587/1000

def distribution_coefficient : ℚ := 933/1000

def dispersivity : ℚ := 1

def source_concentration : ℚ := 5/100

def initial_concentration : ℚ := 0

def specific_discharge : ℚ := velocity * porosity

def inflow_rate : ℚ := specific_discharge * delc * (top - botm)

/-- Keyword arguments accepted by `build_mf6gwt` and `build_mt3dms`,
all defaulting to `None`. -/
structure Kwargs where
  sorption : Option String := none
  Kf : Option ℚ := none
  a : Option ℚ := none
  Kl : Option ℚ := none
  S : Option ℚ := none
  beta : Option ℚ := none
deriving DecidableEq, Repr

/-- The scenario parameter table of `ex-gwt-mt3dms-p02.py`. -/
def parameters : List (String × Kwargs) :=
  [("ex-gwt-mt3dms-p02a", { sorption := some "freundlich", Kf := some (3/10), a := some (7/10) }),
   ("ex-gwt-mt3dms-p02b", { sorption := some "langmuir", Kl := some 100, S := some (3/1000) }),
   ("ex-gwt-mt3dms-p02c", { beta := some 0 }),
   ("ex-gwt-mt3dms-p02d", { beta := some (2/1000) }),
   ("ex-gwt-mt3dms-p02e", { beta := some (1/100) }),
   ("ex-gwt-mt3dms-p02f", { beta := some 20 })]

/-- Arguments passed to `flopy.mf6.ModflowGwtmst` in `build_mf6gwt`. -/
structure MstPkg where
  porosity : ℚ
  bulk_density : ℚ
  sorption : Option String
  distcoef : Option ℚ
  sp2 : Option ℚ
deriving DecidableEq, Repr

/-- The mass-storage argument selection of `build_mf6gwt` (source lines
227-244): `distcoef` starts as `None`, is overwritten by `Kf` when
present and then by `Kl` when present; `sp2` likewise starts as `None`
and is overwritten by `a` then by `S`.  No mutual-exclusivity check is
performed. -/
def build_mf6gwt_mst (k : Kwargs) : MstPkg :=
  let distcoef : Option ℚ := none
  let distcoef : Option ℚ := match k.Kf with | some kf => some kf | none => distcoef
  let distcoef : Option ℚ := match k.Kl with | some kl => some kl | none => distcoef
  let sp2 : Option ℚ := none
  let sp2 : Option ℚ := match k.a with | some av => some av | none => sp2
  let sp2 : Option ℚ := match k.S with | some sv => some sv | none => sp2
  { porosity := porosity, bulk_density := bulk_density,
    sorption := k.sorption, distcoef := distcoef, sp2 := sp2 }

/-- The immobile-storage-and-transfer package of `build_mf6gwt` (source
lines 249-252): instantiated only when `beta` is present and positive,
with `thetaim = bulk_density` and `zetaim = beta`. -/
def build_mf6gwt_ist (k : Kwargs) : Option (ℚ × ℚ) :=
  match k.beta with
  | some b => if b > 0 then some (bulk_density, b) else none
  | none => none

/-- Arguments passed to `flopy.mt3d.Mt3dRct` in `build_mt3dms`. -/
structure RctPkg where
  isothm : ℚ
  igetsc : ℚ
  rhob : ℚ
  sp1 : ℚ
  sp2 : Option ℚ
deriving DecidableEq, Repr

/-- The reaction-package selection of `build_mt3dms` (source lines
338-352): three independent `if ... is not None` tests each rebind
`isothm`, `sp1`, `sp2` — a `beta` branch (`isothm = 4`), then a `Kf`
branch (`isothm = 2`), then a `Kl` branch (`isothm = 3`) — so the
last-checked branch with a present parameter wins.  When none of the
three parameters is present the names are unbound and the call raises
`UnboundLocalError`. -/
def build_mt3dms_rct (k : Kwargs) : Except String RctPkg :=
  let vals : Option (ℚ × ℚ × Option ℚ) := none
  let vals : Option (ℚ × ℚ × Option ℚ) :=
    match k.beta with
    | some b => some (4, distribution_coefficient, some b)
    | none => vals
  let vals : Option (ℚ × ℚ × Option ℚ) :=
    match k.Kf with
    | some kf => some (2, kf, k.a)
    | none => vals
  let vals : Option (ℚ × ℚ × Option ℚ) :=
    match k.Kl with
    | some kl => some (3, kl, k.S)
    | none => vals
  match vals with
  | some v => .ok { isothm := v.1, igetsc := 0, rhob := bulk_density, sp1 := v.2.1, sp2 := v.2.2 }
  | none => .error "UnboundLocalError: local variable isothm referenced before assignment"

/-- The parameter-dependent and claim-relevant content of the four
simulation descriptions returned by `build_model`. -/
structure Sims where
  mst : MstPkg
  ist : Option (ℚ × ℚ)
  rct : RctPkg
deriving DecidableEq, Repr

/-- `build_model`: under `config.buildModel`, builds the flow models and
the two transport models from the scenario's keyword arguments;
`build_mt3dms`'s `UnboundLocalError` propagates.  Returns `None` when
building is disabled. -/
def build_model (cfg : Config) (k : Kwargs) : Except String (Option Sims) :=
  if cfg.buildModel then
    match build_mt3dms_rct k with
    | .error e => .error e
    | .ok rct => .ok (some { mst := build_mf6gwt_mst k, ist := build_mf6gwt_ist k, rct := rct })
  else .ok none

/-- Modelled from the spec: the collaborator library's serializers are
not part of this repository; the Writer is a deterministic
serialization of the built descriptions into the workspace layout. -/
def serializeSims (simName : String) (s : Sims) : List (String × String) :=
  [(simName ++ "/mf6gwt/trans.mst",
      (match s.mst.sorption with | some srp => srp | none => "none") ++ " " ++
      toString s.mst.porosity ++ " " ++ toString s.mst.bulk_density ++ " " ++
      (match s.mst.distcoef with | some d => toString d | none => "none") ++ " " ++
      (match s.mst.sp2 with | some d => toString d | none => "none")),
   (simName ++ "/mf6gwt/trans.ist",
      match s.ist with
      | some p => toString p.1 ++ " " ++ toString p.2
      | none => ""),
   (simName ++ "/mt3d/trans.rct",
      toString s.rct.isothm ++ " " ++ toString s.rct.igetsc ++ " " ++
      toString s.rct.rhob ++ " " ++ toString s.rct.sp1 ++ " " ++
      (match s.rct.sp2 with | some d => toString d | none => "none"))]

/-- `write_model`: gated by `config.writeModel`; unpacking the `None` of
a skipped build raises `TypeError` in the source. -/
def write_model (cfg : Config) (simName : String) (built : Option Sims) (fs : P01.FS) :
    Except String P01.FS :=
  if cfg.writeModel then
    match built with
    | none => .error "TypeError: cannot unpack non-iterable NoneType object"
    | some s => .ok (P01.writeAll (serializeSims simName s) fs)
  else .ok fs

/-- One `build_model` + `write_model` pass with both phases enabled, as
a filesystem transformer (a failed build leaves the filesystem
untouched). -/
def buildWrite (simName : String) (k : Kwargs) (fs : P01.FS) : P01.FS :=
  match build_mt3dms_rct k with
  | .ok rct =>
      P01.writeAll
        (serializeSims simName
          { mst := build_mf6gwt_mst k, ist := build_mf6gwt_ist k, rct := rct }) fs
  | .error _ => fs

/-- Outcomes of the four external solver invocations for one scenario,
plus the observation time series each transport solver writes. -/
structure ExtRuns where
  gwfRun : Bool × String
  gwtRun : Bool × String
  mfRun : Bool × String
  mtRun : Bool × String
  obsMt : List ℚ
  obsMf6 : List ℚ

/-- The body of `run_model` under the `config.runModel` gate (source
lines 390-415): `success` is set to `False`, then each of the four
invocations rebinds `success, buff` and prints `buff` when that
invocation failed; the returned flag is the last invocation's. -/
def runCore (r1 r2 r3 r4 : Bool × String) : Bool × List String :=
  let success := false
  let (success, buff) := r1
  let p1 : List String := if success = false then [buff] else []
  let (success, buff) := r2
  let p2 : List String := if success = false then [buff] else []
  let (success, buff) := r3
  let p3 : List String := if success = false then [buff] else []
  let (success, buff) := r4
  let p4 : List String := if success = false then [buff] else []
  (success, p1 ++ p2 ++ p3 ++ p4)

/-- `run_model`: `success = True` up front, the four invocations only
under `config.runModel` (unpacking `None` models raises). -/
def run_model (cfg : Config) (built : Option Sims) (ext : ExtRuns) :
    Except String (Bool × List String) :=
  let success := true
  if cfg.runModel then
    match built with
    | none => .error "TypeError: cannot unpack non-iterable NoneType object"
    | some _ => .ok (runCore ext.gwfRun ext.gwtRun ext.mfRun ext.mtRun)
  else .ok (success, [])

/-- The figure produced by `plot_results_ct`: the two normalized
observation series and whether the figure was saved. -/
structure Figure where
  mtSeries : List ℚ
  mf6Series : List ℚ
  saved : Bool
deriving DecidableEq, Repr

/-- The body of `plot_results_ct` under the `config.plotModel` gate:
both observation series are divided by `source_concentration` before
plotting; the figure is saved when `config.plotSave` is set. -/
def plotCore (plotSave : Bool) (obsMt obsMf6 : List ℚ) : Figure :=
  { mtSeries := obsMt.map (fun cv => cv / source_concentration),
    mf6Series := obsMf6.map (fun cv => cv / source_concentration),
    saved := plotSave }

/-- `plot_results_ct`: silently does nothing when `config.plotModel` is
unset; with it set, reads and normalizes the observation outputs
(raising when handed the `None` of a skipped build). -/
def plot_results_ct (cfg : Config) (built : Option Sims) (ext : ExtRuns) :
    Except String (Option Figure) :=
  if cfg.plotModel then
    match built with
    | none => .error "TypeError: cannot unpack non-iterable NoneType object"
    | some _ => .ok (some (plotCore cfg.plotSave ext.obsMt ext.obsMf6))
  else .ok none

/-- `scenario(idx)`: parameter lookup, then `build_model`,
`write_model`, `run_model`, and — only on reported success —
`plot_results_ct`. -/
def scenario (cfg : Config) (ext : ExtRuns) (idx : Nat) : Except String P01.Trace := do
  match parameters.get? idx with
  | none => .error "IndexError: list index out of range"
  | some kv =>
    let built ← build_model cfg kv.2
    let _fs ← write_model cfg kv.1 built (fun _ => none)
    let res ← run_model cfg built ext
    let fig ← if res.1 then plot_results_ct cfg built ext else .ok none
    .ok { buildExecuted := cfg.buildModel,
          writeExecuted := cfg.writeModel,
          runExecuted := cfg.runModel,
          runSuccess := res.1,
          printed := res.2,
          plotExecuted := fig.isSome,
          figureSaved := match fig with | some f => f.saved | none => false }

end P02

/-- Everything in the p01 simulation descriptions except the
decay-dependent flags and coefficients (`ireact`, `rc1`, `rc2`,
`first_order_decay`, `decay`, `decay_sorbed`). -/
structure P01FrameView where
  nlay : Nat
  nrow : Nat
  ncol : Nat
  delr : ℚ
  delc : ℚ
  ibound : Nat → Nat → Nat → Int
  chdspd : List ((Nat × Nat × Nat) × ℚ)
  cncspd : List ((Nat × Nat × Nat) × ℚ)
  perioddata : List (ℚ × ℚ × ℚ)
  mt3dAl : ℚ
  isothm : ℚ
  igetsc : ℚ
  rctRhob : ℚ
  sp1 : ℚ
  scheme : String
  dsp : Option (ℚ × ℚ)
  porosity : ℚ
  sorption : Option String
  bulk_density : ℚ
  distcoef : ℚ
  gwtSaverecord : List (String × String)

/-- Projection of a built p01 description onto its
non-decay-dependent content. -/
def p01FrameView (s : P01.Sims) : P01FrameView :=
  { nlay := s.nlay, nrow := s.nrow, ncol := s.ncol, delr := s.delr, delc := s.delc,
    ibound := s.ibound, chdspd := s.chdspd, cncspd := s.cncspd,
    perioddata := s.perioddata, mt3dAl := s.mt3dAl,
    isothm := s.rct.isothm, igetsc := s.rct.igetsc, rctRhob := s.rct.rhob,
    sp1 := s.rct.sp1, scheme := s.scheme, dsp := s.dsp,
    porosity := s.mst.porosity, sorption := s.mst.sorption,
    bulk_density := s.mst.bulk_density, distcoef := s.mst.distcoef,
    gwtSaverecord := s.gwtSaverecord }

/- Concrete inputs used by witnesses and counterexamples. -/

/-- All phases enabled, figure saving enabled. -/
def cfgAll : Config :=
  { buildModel := true, writeModel := true, runModel := true,
    plotModel := true, plotSave := true }

/-- Plotting disabled. -/
def cfgNoPlot : Config :=
  { buildModel := true, writeModel := true, runModel := true,
    plotModel := false, plotSave := false }

/-- All three p01 solver invocations succeed. -/
def extOk : P01.ExtRuns :=
  { mfRun := (true, ""), mtRun := (true, ""), simRun := (true, ""),
    concMt := fun _ => 0, concMf6 := fun _ => 0 }

/-- The final p01 solver invocation (the MF6 simulation) fails. -/
def extFailSim : P01.ExtRuns :=
  { mfRun := (true, ""), mtRun := (true, ""), simRun := (false, "sim diagnostics"),
    concMt := fun _ => 0, concMf6 := fun _ => 0 }

/-- The first p01 solver invocation (the MODFLOW flow model) fails while
the later ones succeed. -/
def extFailMf : P01.ExtRuns :=
  { mfRun := (false, "flow diagnostics"), mtRun := (true, ""), simRun := (true, ""),
    concMt := fun _ => 0, concMf6 := fun _ => 0 }

/-- The final p02 solver invocation (MT3DMS) fails. -/
def ext2FailMt : P02.ExtRuns :=
  { gwfRun := (true, ""), gwtRun := (true, ""), mfRun := (true, ""),
    mtRun := (false, "mt3d diagnostics"), obsMt := [], obsMf6 := [] }

/-- The `ex-gwt-mt3dms-p01a` parameter set. -/
def pr1 : P01.Params := { dispersivity := 0, retardation := 1, decay := 0 }

/-- The `ex-gwt-mt3dms-p01d` parameter set. -/
def pr5 : P01.Params := { dispersivity := 10, retardation := 5, decay := 2/1000 }

/-- Keyword arguments supplying Freundlich, Langmuir, and kinetic
parameters simultaneously. -/
def kBoth : P02.Kwargs :=
  { sorption := some "freundlich", Kf := some (3/10), a := some (7/10),
    Kl := some 100, S := some (3/1000), beta := some (2/1000) }

/-- Trace of a fully enabled, fully successful p01 scenario. -/
def tOk : P01.Trace :=
  { buildExecuted := true, writeExecuted := true, runExecuted := true,
    runSuccess := true, printed := [], plotExecuted := true, figureSaved := true }

/-- Trace of a fully enabled p01 scenario whose final solver failed. -/
def tFailSim : P01.Trace :=
  { buildExecuted := true, writeExecuted := true, runExecuted := true,
    runSuccess := false, printed := ["sim diagnostics"],
    plotExecuted := false, figureSaved := false }

/-- A concrete built p01 description (the `ex-gwt-mt3dms-p01a` one). -/
def simsA : P01.Sims :=
  { nlay := P01.nlay, nrow := P01.nrow, ncol := P01.ncol,
    delr := P01.delr, delc := P01.delc, ibound := P01.ibound,
    chdspd := P01.chdspd, cncspd := P01.cncspd, perioddata := P01.tdis_rc,
    mt3dAl := 0, rct := P01.buildRct pr1, scheme := "UPSTREAM", dsp := none,
    mst := P01.buildMst pr1,
    gwtSaverecord := [("CONCENTRATION", "LAST"), ("BUDGET", "LAST")] }

/-- Whether an `Except` computation succeeded. -/
def exceptOk {ε α : Type} : Except ε α → Bool
  | .ok _ => true
  | .error _ => false

/- Helper lemmas (shared by several claim theorems). -/

/-- The p01 runner body returns the last invocation's flag, printing its
diagnostics only when that last invocation failed. -/
lemma runCore_p01_eq (rMf rMt rSim : Bool × String) :
    P01.runCore rMf rMt rSim = (rSim.1, if rSim.1 then [] else [rSim.2]) := by
  obtain ⟨b1, s1⟩ := rMf
  obtain ⟨b2, s2⟩ := rMt
  obtain ⟨b3, s3⟩ := rSim
  cases b3 <;> rfl

/-- The p02 runner body returns the last invocation's flag, printing the
diagnostics of every failed invocation in order. -/
lemma runCore_p02_eq (r1 r2 r3 r4 : Bool × String) :
    P02.runCore r1 r2 r3 r4 =
      (r4.1,
        (if r1.1 then [] else [r1.2]) ++ (if r2.1 then [] else [r2.2]) ++
        (if r3.1 then [] else [r3.2]) ++ (if r4.1 then [] else [r4.2])) := by
  obtain ⟨b1, s1⟩ := r1
  obtain ⟨b2, s2⟩ := r2
  obtain ⟨b3, s3⟩ := r3
  obtain ⟨b4, s4⟩ := r4
  cases b1 <;> cases b2 <;> cases b3 <;> cases b4 <;> rfl

/-- Overwriting the same batch of files twice equals overwriting it
once. -/
lemma writeAll_idem (files : List (String × String)) (fs : P01.FS) :
    P01.writeAll files (P01.writeAll files fs) = P01.writeAll files fs := by
  funext p
  unfold P01.writeAll
  cases files.lookup p <;> rfl

/-- A successful p01 `plot_results` call produces a figure exactly when
plotting is enabled, and any produced figure is saved exactly when
figure saving is enabled. -/
lemma p01_plot_results_ok (cfg : Config) (built : Option P01.Sims) (ext : P01.ExtRuns)
    (fig : Option P01.Figure) (h : P01.plot_results cfg built ext = .ok fig) :
    fig.isSome = cfg.plotModel ∧ ∀ f, fig = some f → f.saved = cfg.plotSave := by
  unfold P01.plot_results at h
  by_cases hp : cfg.plotModel = true
  · rw [if_pos hp] at h
    cases built with
    | none => cases h
    | some s =>
      cases h
      refine ⟨by simp [hp], ?_⟩
      intro f hf
      cases hf
      rfl
  · rw [if_neg hp] at h
    cases h
    simp [Bool.not_eq_true] at hp
    simp [hp]

/-- A successful p02 `plot_results_ct` call produces a figure exactly
when plotting is enabled, and any produced figure is saved exactly when
figure saving is enabled. -/
lemma p02_plot_results_ok (cfg : Config) (built : Option P02.Sims) (ext : P02.ExtRuns)
    (fig : Option P02.Figure) (h : P02.plot_results_ct cfg built ext = .ok fig) :
    fig.isSome = cfg.plotModel ∧ ∀ f, fig = some f → f.saved = cfg.plotSave := by
  unfold P02.plot_results_ct at h
  by_cases hp : cfg.plotModel = true
  · rw [if_pos hp] at h
    cases built with
    | none => cases h
    | some s =>
      cases h
      refine ⟨by simp [hp], ?_⟩
      intro f hf
      cases hf
      rfl
  · rw [if_neg hp] at h
    cases h
    simp [Bool.not_eq_true] at hp
    simp [hp]

/-- Characterization of a completed p01 `scenario` call: the build,
write, and run bodies run exactly when their flags are set, the plot
body runs exactly when plotting is enabled and the runner reported
success, and the figure is saved exactly when additionally figure
saving is enabled. -/
lemma p01_scenario_char (cfg : Config) (ext : P01.ExtRuns) (idx : Nat) (t : P01.Trace)
    (h : P01.scenario cfg ext idx = .ok t) :
    t.buildExecuted = cfg.buildModel ∧ t.writeExecuted = cfg.writeModel ∧
    t.runExecuted = cfg.runModel ∧
    t.plotExecuted = (cfg.plotModel && t.runSuccess) ∧
    t.figureSaved = (cfg.plotSave && t.plotExecuted) := by
  unfold P01.scenario at h
  cases hkv : P01.parameters.get? idx with
  | none => simp only [hkv] at h; exact Except.noConfusion h
  | some kv =>
    simp only [hkv, Bind.bind, Except.bind] at h
    cases hb : P01.build_model cfg kv.2 with
    | error e => simp only [hb] at h; exact Except.noConfusion h
    | ok built =>
      simp only [hb] at h
      cases hw : P01.write_model cfg kv.1 built (fun _ => none) with
      | error e => simp only [hw] at h; exact Except.noConfusion h
      | ok fs =>
        simp only [hw] at h
        cases hr : P01.run_model cfg built ext with
        | error e => simp only [hr] at h; exact Except.noConfusion h
        | ok res =>
          simp only [hr] at h
          by_cases hres : res.1 = true
          · rw [if_pos hres] at h
            cases hp : P01.plot_results cfg built ext with
            | error e => simp only [hp] at h; exact Except.noConfusion h
            | ok fig =>
              simp only [hp] at h
              cases h
              obtain ⟨hsome, hsaved⟩ := p01_plot_results_ok cfg built ext fig hp
              refine ⟨rfl, rfl, rfl, ?_, ?_⟩
              · simp only [hres, Bool.and_true]
                exact hsome
              · cases fig with
                | none => simp [Option.isSome]
                | some f => simp [Option.isSome, hsaved f rfl]
          · rw [if_neg hres] at h
            cases h
            simp only [Bool.not_eq_true] at hres
            refine ⟨rfl, rfl, rfl, ?_, ?_⟩
            · simp [hres, Option.isSome]
            · simp [Option.isSome]

/-- Characterization of a completed p02 `scenario` call, matching
`p01_scenario_char`. -/
lemma p02_scenario_char (cfg : Config) (ext : P02.ExtRuns) (idx : Nat) (t : P01.Trace)
    (h : P02.scenario cfg ext idx = .ok t) :
    t.buildExecuted = cfg.buildModel ∧ t.writeExecuted = cfg.writeModel ∧
    t.runExecuted = cfg.runModel ∧
    t.plotExecuted = (cfg.plotModel && t.runSuccess) ∧
    t.figureSaved = (cfg.plotSave && t.plotExecuted) := by
  unfold P02.scenario at h
  cases hkv : P02.parameters.get? idx with
  | none => simp only [hkv] at h; exact Except.noConfusion h
  | some kv =>
    simp only [hkv, Bind.bind, Except.bind] at h
    cases hb : P02.build_model cfg kv.2 with
    | error e => simp only [hb] at h; exact Except.noConfusion h
    | ok built =>
      simp only [hb] at h
      cases hw : P02.write_model cfg kv.1 built (fun _ => none) with
      | error e => simp only [hw] at h; exact Except.noConfusion h
      | ok fs =>
        simp only [hw] at h
        cases hr : P02.run_model cfg built ext with
        | error e => simp only [hr] at h; exact Except.noConfusion h
        | ok res =>
          simp only [hr] at h
          by_cases hres : res.1 = true
          · rw [if_pos hres] at h
            cases hp : P02.plot_results_ct cfg built ext with
            | error e => simp only [hp] at h; exact Except.noConfusion h
            | ok fig =>
              simp only [hp] at h
              cases h
              obtain ⟨hsome, hsaved⟩ := p02_plot_results_ok cfg built ext fig hp
              refine ⟨rfl, rfl, rfl, ?_, ?_⟩
              · simp only [hres, Bool.and_true]
                exact hsome
              · cases fig with
                | none => simp [Option.isSome]
                | some f => simp [Option.isSome, hsaved f rfl]
          · rw [if_neg hres] at h
            cases h
            simp only [Bool.not_eq_true] at hres
            refine ⟨rfl, rfl, rfl, ?_, ?_⟩
            · simp [hres, Option.isSome]
            · simp [Option.isSome]

/-- With every phase enabled, a p01 `scenario` call on an in-range index
completes without a Python exception, whatever the solver outcomes. -/
lemma p01_scenario_cfgAll_ok (e : P01.ExtRuns) (i : Nat) (hi : i < 4) :
    ∃ t, P01.scenario cfgAll e i = .ok t := by
  obtain ⟨⟨b1, s1⟩, ⟨b2, s2⟩, ⟨b3, s3⟩, c1, c2⟩ := e
  interval_cases i <;> cases b3 <;> exact ⟨_, rfl⟩

/-- With every phase enabled, the p01 main block runs all four
scenarios to completion regardless of solver failures. -/
lemma p01_mainBlock_cfgAll_ok (ext : Nat → P01.ExtRuns) :
    ∃ l, P01.mainBlock cfgAll ext = .ok l ∧ l.length = 4 := by
  obtain ⟨t0, h0⟩ := p01_scenario_cfgAll_ok (ext 0) 0 (by norm_num)
  obtain ⟨t1, h1⟩ := p01_scenario_cfgAll_ok (ext 1) 1 (by norm_num)
  obtain ⟨t2, h2⟩ := p01_scenario_cfgAll_ok (ext 2) 2 (by norm_num)
  obtain ⟨t3, h3⟩ := p01_scenario_cfgAll_ok (ext 3) 3 (by norm_num)
  refine ⟨[t0, t1, t2, t3], ?_, rfl⟩
  unfold P01.mainBlock
  simp [Bind.bind, Except.bind, h0, h1, h2, h3]

/- Claim theorems. -/

/-- C1 (counterexample): at the `ex-gwt-mt3dms-p01a` parameter set the
retardation is `1 ≥ 1`, yet the distribution coefficient passed to the
MODFLOW 6 mass-storage package is the placeholder `1.0` rather than the
formula value `(retardation - 1) * prsity / rhob = 0`; moreover the
MT3DMS builder does compute that formula coefficient and passes it as
`sp1` even though sorption is disabled. -/
theorem p01_distribution_coefficient_counterexample :
    (1 : ℚ) ≤ pr1.retardation ∧
    (P01.buildMst pr1).distcoef ≠ (pr1.retardation - 1) * P01.prsity / P01.rhob ∧
    (P01.buildRct pr1).sp1 = (pr1.retardation - 1) * P01.prsity / P01.rhob := by
  refine ⟨by norm_num [pr1], ?_, rfl⟩
  norm_num [pr1, P01.buildMst, P01.prsity, P01.rhob]

/-- C1 (amended): for retardation strictly above 1 both simulation
descriptions carry the distribution coefficient
`(retardation - 1) * prsity / rhob` exactly and sorption is enabled
(`isothm = 1`, linear sorption); at retardation exactly 1, sorption is
disabled in both (`isothm = 0`, sorption `None`), while a placeholder
coefficient is still passed: `sp1 = 0` (from the same formula) to
MT3DMS, and `distcoef = 1.0` to MODFLOW 6. -/
theorem p01_distribution_coefficient_amended (p : P01.Params) :
    (1 < p.retardation →
      (P01.buildRct p).sp1 = (p.retardation - 1) * P01.prsity / P01.rhob ∧
      (P01.buildMst p).distcoef = (p.retardation - 1) * P01.prsity / P01.rhob ∧
      (P01.buildRct p).isothm = 1 ∧
      (P01.buildMst p).sorption = some "linear") ∧
    (p.retardation = 1 →
      (P01.buildRct p).isothm = 0 ∧
      (P01.buildMst p).sorption = none ∧
      (P01.buildRct p).sp1 = 0 ∧
      (P01.buildMst p).distcoef = 1) := by
  constructor
  · intro hgt
    have hne : p.retardation ≠ 1 := ne_of_gt hgt
    simp [P01.buildRct, P01.buildMst, hne]
  · intro heq
    simp [P01.buildRct, P01.buildMst, heq]

/-- C1 (witness): the amended statement evaluated at the
`ex-gwt-mt3dms-p01d` and `ex-gwt-mt3dms-p01a` parameter sets. -/
theorem p01_distribution_coefficient_witness :
    ((P01.buildRct pr5).sp1 = (pr5.retardation - 1) * P01.prsity / P01.rhob ∧
     (P01.buildMst pr5).distcoef = (pr5.retardation - 1) * P01.prsity / P01.rhob ∧
     (P01.buildRct pr5).isothm = 1 ∧
     (P01.buildMst pr5).sorption = some "linear") ∧
    ((P01.buildRct pr1).isothm = 0 ∧
     (P01.buildMst pr1).sorption = none ∧
     (P01.buildRct pr1).sp1 = 0 ∧
     (P01.buildMst pr1).distcoef = 1) :=
  ⟨(p01_distribution_coefficient_amended pr5).1 (by norm_num [pr5]),
   (p01_distribution_coefficient_amended pr1).2 (by norm_num [pr1])⟩

/-- C2 (counterexample): with all phases enabled, a run in which the
very first solver (the MODFLOW flow model) fails while the later
invocations succeed makes p01's `run_model` return `True` and print no
diagnostics, so the returned flag does not reflect the execution of
each solver and the failure's diagnostics are lost. -/
theorem run_model_flag_counterexample :
    P01.run_model cfgAll (some simsA) extFailMf = .ok (true, []) ∧
    extFailMf.mfRun.1 = false := ⟨rfl, rfl⟩

/-- C2 (amended): `run_model` returns the success flag of the last
solver invocation only; p01 prints diagnostics only when that final
invocation fails, while p02 prints the diagnostics of every failed
invocation; and a solver failure never halts the batch — with all
phases enabled the p01 main block completes all four scenarios whatever
the solver outcomes. -/
theorem run_model_last_solver_flag :
    (∀ rMf rMt rSim : Bool × String,
        P01.runCore rMf rMt rSim = (rSim.1, if rSim.1 then [] else [rSim.2])) ∧
    (∀ r1 r2 r3 r4 : Bool × String,
        P02.runCore r1 r2 r3 r4 =
          (r4.1,
            (if r1.1 then [] else [r1.2]) ++ (if r2.1 then [] else [r2.2]) ++
            (if r3.1 then [] else [r3.2]) ++ (if r4.1 then [] else [r4.2]))) ∧
    (∀ ext : Nat → P01.ExtRuns,
        ∃ l, P01.mainBlock cfgAll ext = .ok l ∧ l.length = 4) :=
  ⟨runCore_p01_eq, runCore_p02_eq, p01_mainBlock_cfgAll_ok⟩

/-- C3: in both scripts, when a completed `scenario` call's runner
reported failure, the plot body did not run and no figure-save side
effect occurred. -/
theorem no_plot_on_failed_run :
    (∀ (cfg : Config) (ext : P01.ExtRuns) (idx : Nat) (t : P01.Trace),
        P01.scenario cfg ext idx = .ok t → t.runSuccess = false →
        t.plotExecuted = false ∧ t.figureSaved = false) ∧
    (∀ (cfg : Config) (ext : P02.ExtRuns) (idx : Nat) (t : P01.Trace),
        P02.scenario cfg ext idx = .ok t → t.runSuccess = false →
        t.plotExecuted = false ∧ t.figureSaved = false) := by
  constructor
  · intro cfg ext idx t h hfail
    obtain ⟨-, -, -, hplot, hsave⟩ := p01_scenario_char cfg ext idx t h
    rw [hfail, Bool.and_false] at hplot
    rw [hplot, Bool.and_false] at hsave
    exact ⟨hplot, hsave⟩
  · intro cfg ext idx t h hfail
    obtain ⟨-, -, -, hplot, hsave⟩ := p02_scenario_char cfg ext idx t h
    rw [hfail, Bool.and_false] at hplot
    rw [hplot, Bool.and_false] at hsave
    exact ⟨hplot, hsave⟩

/-- C3 (witness): a fully enabled p01 scenario whose final solver
invocation fails completes with `runSuccess = false`, and the theorem
yields that no plotting or figure saving happened. -/
theorem no_plot_on_failed_run_witness :
    P01.scenario cfgAll extFailSim 0 = .ok tFailSim ∧
    tFailSim.runSuccess = false ∧
    tFailSim.plotExecuted = false ∧ tFailSim.figureSaved = false :=
  ⟨rfl, rfl, no_plot_on_failed_run.1 cfgAll extFailSim 0 tFailSim rfl rfl⟩

/-- C4: when a scenario's keyword arguments supply several
sorption/reaction models at once, no mutual-exclusivity validation
happens and the last-checked branch wins: with both `Kf` and `Kl`
present, `build_mf6gwt` passes `Kl` as `distcoef` (and `S` as `sp2`
when both `a` and `S` are present), and `build_mt3dms` selects the
Langmuir isotherm (`isothm = 3`) with `sp1 = Kl`, whatever `beta` or
`Kf` say; with `beta` and `Kf` present but no `Kl`, the Freundlich
branch (`isothm = 2`) overrides the kinetic `beta` branch. -/
theorem builder_last_branch_wins :
    (∀ (k : P02.Kwargs) (kf kl : ℚ), k.Kf = some kf → k.Kl = some kl →
        (P02.build_mf6gwt_mst k).distcoef = some kl ∧
        P02.build_mt3dms_rct k =
          .ok { isothm := 3, igetsc := 0, rhob := P02.bulk_density,
                sp1 := kl, sp2 := k.S }) ∧
    (∀ (k : P02.Kwargs) (av sv : ℚ), k.a = some av → k.S = some sv →
        (P02.build_mf6gwt_mst k).sp2 = some sv) ∧
    (∀ (k : P02.Kwargs) (b kf : ℚ), k.beta = some b → k.Kf = some kf → k.Kl = none →
        P02.build_mt3dms_rct k =
          .ok { isothm := 2, igetsc := 0, rhob := P02.bulk_density,
                sp1 := kf, sp2 := k.a }) := by
  refine ⟨?_, ?_, ?_⟩
  · intro k kf kl hKf hKl
    constructor
    · simp [P02.build_mf6gwt_mst, hKl]
    · simp [P02.build_mt3dms_rct, hKl]
  · intro k av sv ha hS
    simp [P02.build_mf6gwt_mst, hS]
  · intro k b kf hb hKf hKl
    simp [P02.build_mt3dms_rct, hb, hKf, hKl]

/-- C4 (witness): the theorem evaluated at keyword arguments carrying
Freundlich, Langmuir, and kinetic parameters simultaneously. -/
theorem builder_last_branch_wins_witness :
    (P02.build_mf6gwt_mst kBoth).distcoef = some 100 ∧
    P02.build_mt3dms_rct kBoth =
      .ok { isothm := 3, igetsc := 0, rhob := P02.bulk_density,
            sp1 := 100, sp2 := kBoth.S } ∧
    (P02.build_mf6gwt_mst kBoth).sp2 = some (3/1000) :=
  ⟨(builder_last_branch_wins.1 kBoth (3/10) 100 rfl rfl).1,
   (builder_last_branch_wins.1 kBoth (3/10) 100 rfl rfl).2,
   builder_last_branch_wins.2.1 kBoth (7/10) (3/1000) rfl rfl⟩

/-- C5 (counterexample): with every enable flag true but the final
solver invocation failing, the run phase executes yet the plot phase
does not, so "plot executes if and only if `config.plotModel` is true"
fails. -/
theorem phase_gating_counterexample :
    P01.scenario cfgAll extFailSim 0 = .ok tFailSim ∧
    cfgAll.plotModel = true ∧ cfgAll.runModel = true ∧
    tFailSim.runExecuted = true ∧ tFailSim.plotExecuted = false :=
  ⟨rfl, rfl, rfl, rfl, rfl⟩

/-- C5 (amended): in a completed `scenario` call of either script, the
build, write, and run bodies execute exactly when their enable flags
are set, while the plot body executes exactly when `config.plotModel`
is set AND the runner reported success (which it vacuously does when
`config.runModel` is unset); the figure is saved exactly when
additionally `config.plotSave` is set. -/
theorem phase_gating_amended :
    (∀ (cfg : Config) (ext : P01.ExtRuns) (idx : Nat) (t : P01.Trace),
        P01.scenario cfg ext idx = .ok t →
        t.buildExecuted = cfg.buildModel ∧ t.writeExecuted = cfg.writeModel ∧
        t.runExecuted = cfg.runModel ∧
        t.plotExecuted = (cfg.plotModel && t.runSuccess) ∧
        t.figureSaved = (cfg.plotSave && t.plotExecuted)) ∧
    (∀ (cfg : Config) (ext : P02.ExtRuns) (idx : Nat) (t : P01.Trace),
        P02.scenario cfg ext idx = .ok t →
        t.buildExecuted = cfg.buildModel ∧ t.writeExecuted = cfg.writeModel ∧
        t.runExecuted = cfg.runModel ∧
        t.plotExecuted = (cfg.plotModel && t.runSuccess) ∧
        t.figureSaved = (cfg.plotSave && t.plotExecuted)) :=
  ⟨p01_scenario_char, p02_scenario_char⟩

/-- C5 (witness): the amended gating evaluated on a fully enabled,
fully successful p01 scenario. -/
theorem phase_gating_witness :
    tOk.buildExecuted = cfgAll.buildModel ∧ tOk.writeExecuted = cfgAll.writeModel ∧
    tOk.runExecuted = cfgAll.runModel ∧
    tOk.plotExecuted = (cfgAll.plotModel && tOk.runSuccess) ∧
    tOk.figureSaved = (cfgAll.plotSave && tOk.plotExecuted) :=
  phase_gating_amended.1 cfgAll extOk 0 tOk rfl

/-- C6: two p01 parameter sets that differ only in `decay` build
simulation descriptions that agree on everything except the
decay-dependent flags and coefficients (`ireact`, `rc1`, `rc2`,
`first_order_decay`, `decay`, `decay_sorbed`): the projection away from
those fields is unchanged, including the distribution coefficient. -/
theorem decay_frame_effect (p : P01.Params) (d : ℚ) :
    (P01.buildSims { p with decay := d }).map p01FrameView =
      (P01.buildSims p).map p01FrameView := by
  obtain ⟨dis, ret, dec, mix⟩ := p
  unfold P01.buildSims
  rcases h : P01.advScheme mix with e | sch
  · simp [h]
  · simp only [h, Except.map]
    congr 1

/-- C7: rebuilding and rewriting the same scenario with unchanged
parameters is idempotent on the filesystem — the second Build+Write
pass overwrites every input file with byte-identical contents, for both
scripts. -/
theorem build_write_idempotent (simName : String) (p : P01.Params) (k : P02.Kwargs)
    (fs : P01.FS) :
    P01.buildWrite simName p (P01.buildWrite simName p fs) =
      P01.buildWrite simName p fs ∧
    P02.buildWrite simName k (P02.buildWrite simName k fs) =
      P02.buildWrite simName k fs := by
  constructor
  · rcases hbs : P01.buildSims p with e | s <;>
      simp [P01.buildWrite, hbs, writeAll_idem]
  · rcases hbr : P02.build_mt3dms_rct k with e | r <;>
      simp [P02.buildWrite, hbr, writeAll_idem]

/-- C8: the `ex-gwt-mt3dms-p01a` scenario (zero dispersion, zero decay,
retardation 1) builds a 1-layer, 1-row, 101-column description with a
constant-head boundary cell at each end of the row, no sorption and no
dispersion package, a single 2000-day stress period saving the final
concentration, and its plot overlays the two solvers' concentration
profiles under the time-2,000 heading. -/
theorem p01a_end_to_end :
    (∃ s : P01.Sims, P01.buildSims pr1 = .ok s ∧
      s.nlay = 1 ∧ s.nrow = 1 ∧ s.ncol = 101 ∧
      s.chdspd = [((0, 0, 0), P01.h1), ((0, 0, 100), 0)] ∧
      s.ibound 0 0 0 = -1 ∧ s.ibound 0 0 100 = -1 ∧ s.ibound 0 0 50 = 1 ∧
      s.perioddata = [(2000, 100, 1)] ∧
      s.gwtSaverecord = [("CONCENTRATION", "LAST"), ("BUDGET", "LAST")] ∧
      s.rct.isothm = 0 ∧ s.mst.sorption = none ∧ s.dsp = none ∧
      s.scheme = "UPSTREAM") ∧
    P01.perlen = 2000 ∧
    (∀ (ps : Bool) (cMt cMf6 : Fin 101 → ℚ),
      (P01.plotCore ps cMt cMf6).labels = ["MT3DMS", "MF6"] ∧
      (P01.plotCore ps cMt cMf6).title =
        "Concentration Profile at Time = 2,000 days" ∧
      (∀ i, (P01.plotCore ps cMt cMf6).mtSeries i = cMt i ∧
            (P01.plotCore ps cMt cMf6).mf6Series i = cMf6 i)) := by
  refine ⟨⟨_, rfl, ?_⟩, rfl, ?_⟩
  · refine ⟨rfl, rfl, rfl, rfl, by decide, by decide, by decide, rfl, rfl, ?_, ?_, ?_, rfl⟩
    · simp [P01.buildRct, pr1]
    · simp [P01.buildMst, pr1]
    · simp [pr1]
  · intro ps cMt cMf6
    exact ⟨rfl, rfl, fun i => ⟨rfl, rfl⟩⟩

/-- C9: the plotters silently no-op when global plotting is disabled,
and the values they plot equal the concentration series divided by the
problem's source concentration — in p01 the source concentration is
`c0 = 1.0` so the raw plotted values coincide with the normalized ones,
and in p02 both observation series are explicitly divided by
`source_concentration`. -/
theorem plotter_normalization :
    (∀ (cfg : Config) (built : Option P01.Sims) (ext : P01.ExtRuns),
        cfg.plotModel = false → P01.plot_results cfg built ext = .ok none) ∧
    (∀ (cfg : Config) (built : Option P02.Sims) (ext : P02.ExtRuns),
        cfg.plotModel = false → P02.plot_results_ct cfg built ext = .ok none) ∧
    (∀ (ps : Bool) (cMt cMf6 : Fin 101 → ℚ) (i : Fin 101),
        (P01.plotCore ps cMt cMf6).mtSeries i = cMt i / P01.c0 ∧
        (P01.plotCore ps cMt cMf6).mf6Series i = cMf6 i / P01.c0) ∧
    (∀ (ps : Bool) (obsMt obsMf6 : List ℚ),
        (P02.plotCore ps obsMt obsMf6).mtSeries =
          obsMt.map (fun cv => cv / P02.source_concentration) ∧
        (P02.plotCore ps obsMt obsMf6).mf6Series =
          obsMf6.map (fun cv => cv / P02.source_concentration)) := by
  refine ⟨?_, ?_, ?_, ?_⟩
  · intro cfg built ext h
    simp [P01.plot_results, h]
  · intro cfg built ext h
    simp [P02.plot_results_ct, h]
  · intro ps cMt cMf6 i
    constructor <;> simp [P01.plotCore, P01.c0]
  · intro ps obsMt obsMf6
    exact ⟨rfl, rfl⟩

/-- C9 (witness): the normalization statement evaluated at concrete
inputs: plotting disabled yields no figure, and concrete series values
are divided by the respective source concentrations. -/
theorem plotter_normalization_witness :
    P01.plot_results cfgNoPlot (some simsA) extOk = .ok none ∧
    P02.plot_results_ct cfgNoPlot none ext2FailMt = .ok none ∧
    ((P01.plotCore true (fun _ => 3) (fun _ => 5)).mtSeries 0 = 3 / P01.c0 ∧
     (P01.plotCore true (fun _ => 3) (fun _ => 5)).mf6Series 0 = 5 / P01.c0) ∧
    ((P02.plotCore true [1] [2]).mtSeries =
       [1].map (fun cv => cv / P02.source_concentration) ∧
     (P02.plotCore true [1] [2]).mf6Series =
       [2].map (fun cv => cv / P02.source_concentration)) :=
  ⟨plotter_normalization.1 cfgNoPlot (some simsA) extOk rfl,
   plotter_normalization.2.1 cfgNoPlot none ext2FailMt rfl,
   plotter_normalization.2.2.1 true (fun _ => 3) (fun _ => 5) 0,
   plotter_normalization.2.2.2 true [1] [2]⟩

/-- C10: the p01 advection-scheme selection succeeds exactly on
`mixelm = 0` (giving the UPSTREAM scheme) and `mixelm = -1` (giving
TVD), raising otherwise; every entry of the scenario parameter table
uses the default `mixelm = 0`, so every tabulated scenario builds
without error. -/
theorem p01_advection_scheme_selection :
    P01.advScheme 0 = .ok "UPSTREAM" ∧
    P01.advScheme (-1) = .ok "TVD" ∧
    (∀ m : Int, (∃ s, P01.advScheme m = .ok s) ↔ (m = 0 ∨ m = -1)) ∧
    P01.parameters.all (fun kv => kv.2.mixelm == 0) = true ∧
    P01.parameters.all (fun kv => exceptOk (P01.buildSims kv.2)) = true := by
  refine ⟨rfl, rfl, ?_, rfl, rfl⟩
  intro m
  constructor
  · rintro ⟨s, hs⟩
    by_cases h0 : m = 0
    · exact Or.inl h0
    · by_cases h1 : m = -1
      · exact Or.inr h1
      · simp [P01.advScheme, h0, h1] at hs
  · rintro (rfl | rfl)
    · exact ⟨"UPSTREAM", rfl⟩
    · exact ⟨"TVD", rfl⟩

end MT3DMS
